import Mathlib

/-!
Shallow embedding of `opentelemetry-sdk/src/logs/logger_provider.rs`.

The Rust module coordinates the lifecycle of a log pipeline: a shared
`LoggerProviderInner` (ordered processor list + an atomic shutdown flag)
behind `Arc`-cloned `SdkLoggerProvider` handles, a builder that assembles the
pipeline, and shutdown/flush sweeps over the processors.

Modelling choices:
  - Processor calls are observable events (`PEvent`); sweeps return the
    event list they produce, so "invoked exactly once, in registration
    order" becomes a statement about that list.
  - A processor is modelled by its observable responses (the results its
    `shutdown_with_timeout` and `force_flush` return); processors are
    external collaborators of this module.
  - The atomic flag becomes a `Bool` field with explicit state passing; the
    `compare_exchange(false, true, ...)` is the `if s.is_shutdown = false`
    test that also writes `true`.  In the source the flag is the only
    mutable state and every mutation goes through that single CAS, so the
    sequential state-passing model covers every interleaving of the calls.
  - `Arc` semantics (the `Drop` impl of `LoggerProviderInner` runs exactly
    once, when the last handle is released; handle clones and non-final
    drops run no user code) are embedded in `lifetimeTrace`.
  - The `otel_debug!` / `otel_info!` diagnostics macros are internal logging
    side channels, not processor calls, and are not modelled.
-/

namespace OtelLogs

/-- Models `std::time::Duration` as a number of nanoseconds. -/
abbrev Duration := Nat

/-- Models `Duration::from_secs`. -/
def Duration.from_secs (n : Nat) : Duration := n * 1000000000

/-- Modelled from the spec: `Resource` (ResourceDescriptor) is defined outside
this module ("immutable mapping from attribute key to typed value plus optional
schema URL").  Attributes are modelled as an association list; the schema URL is
omitted, since no claim concerns it. -/
structure Resource where
  attrs : List (String × String)
deriving DecidableEq

/-- First-match lookup in an attribute association list. -/
def lookupAttr (k : String) : List (String × String) → Option String
  | [] => none
  | kv :: rest => if kv.1 == k then some kv.2 else lookupAttr k rest

/-- `Resource::get`: the value stored under a key, if any. -/
def Resource.get (r : Resource) (k : String) : Option String :=
  lookupAttr k r.attrs

/-- Modelled from the spec: `Resource::merge` "is left-biased (existing values
win on key collision) and produces a new descriptor".  With first-match lookup,
appending the other descriptor's attributes after our own is exactly the
left-biased merge. -/
def Resource.merge (self other : Resource) : Resource :=
  { attrs := self.attrs ++ other.attrs }

/-- The empty resource descriptor. -/
def Resource.empty : Resource := { attrs := [] }

/-- Modelled from the spec: `Resource::builder().build()` (the fallback used by
`LoggerProviderBuilder::build` when no resource was supplied) is defined outside
this module; the spec says build "falls back to an empty descriptor if none
supplied". -/
def Resource.builder_build : Resource := Resource.empty

/-- Models the `OTelSdkError` variants this module produces (`AlreadyShutdown`
and `InternalFailure(String)`). -/
inductive OTelSdkError where
  | AlreadyShutdown : OTelSdkError
  | InternalFailure : String → OTelSdkError
deriving DecidableEq

/-- Models `OTelSdkResult = Result<(), OTelSdkError>`. -/
abbrev OTelSdkResult := Except OTelSdkError Unit

/-- Models `Result::is_ok`. -/
def OTelSdkResult.is_ok : OTelSdkResult → Bool
  | .ok _ => true
  | .error _ => false

/-- Models `Result::err` (as used through `filter_map(Result::err)`). -/
def OTelSdkResult.err : OTelSdkResult → Option OTelSdkError
  | .ok _ => none
  | .error e => some e

/-- Rust `Debug`-style rendering of an `OTelSdkError`. -/
def OTelSdkError.debugFmt : OTelSdkError → String
  | .AlreadyShutdown => "AlreadyShutdown"
  | .InternalFailure m => "InternalFailure(\"" ++ m ++ "\")"

/-- Rust `Debug`-style rendering of an `OTelSdkResult`. -/
def OTelSdkResult.debugFmt : OTelSdkResult → String
  | .ok _ => "Ok(())"
  | .error e => OTelSdkError.debugFmt e

/-- Rust `Debug`-style rendering of a `Vec`, given a rendering of elements.
An `Err(e)` element of a `Vec<Result<..>>` renders as `Err(...)`. -/
def fmtVec (f : α → String) (xs : List α) : String :=
  "[" ++ String.intercalate ", " (xs.map f) ++ "]"

/-- Rendering of one element of `Vec<OTelSdkResult>` under `Debug`. -/
def fmtResult (r : OTelSdkResult) : String :=
  match r with
  | .ok _ => "Ok(())"
  | .error e => "Err(" ++ OTelSdkError.debugFmt e ++ ")"

/-- A log processor (`Box<dyn LogProcessor>`), modelled by the observable
results of its fallible methods.  `emit` and `set_resource` are side-effecting
and modelled purely as events. -/
structure LogProcessor where
  shutdown_with_timeout : Duration → OTelSdkResult
  force_flush : OTelSdkResult

/-- Observable processor invocations, indexed by the processor's position in
the registration order. -/
inductive PEvent where
  | shutdownCall (i : Nat) (timeout : Duration)
  | flushCall (i : Nat)
  | emitCall (i : Nat)
  | setResourceCall (i : Nat) (resource : Resource)
deriving DecidableEq

/-- Models `LoggerProviderInner`: the shared pipeline state (ordered processor
list + shutdown flag). -/
structure LoggerProviderInner where
  processors : List LogProcessor
  is_shutdown : Bool

/-- The `for processor in &self.processors` loop body of
`LoggerProviderInner::shutdown_with_timeout`, carrying the registration index
of the processor at the head: each processor's `shutdown_with_timeout(timeout)`
is called and its result pushed. -/
def shutdownSweepFrom (k : Nat) (t : Duration) :
    List LogProcessor → List OTelSdkResult × List PEvent
  | [] => ([], [])
  | p :: rest =>
    let result := p.shutdown_with_timeout t
    let tail := shutdownSweepFrom (k + 1) t rest
    (result :: tail.1, PEvent.shutdownCall k t :: tail.2)

/-- Models `LoggerProviderInner::shutdown_with_timeout`: sweeps all processors
and returns the collected results (plus the events the sweep produced). -/
def LoggerProviderInner.shutdown_with_timeout (s : LoggerProviderInner)
    (t : Duration) : List OTelSdkResult × List PEvent :=
  shutdownSweepFrom 0 t s.processors

/-- Models `LoggerProviderInner::shutdown`: the sweep with the default
5-second timeout. -/
def LoggerProviderInner.shutdown (s : LoggerProviderInner) :
    List OTelSdkResult × List PEvent :=
  s.shutdown_with_timeout (Duration.from_secs 5)

/-- Models `SdkLoggerProvider::shutdown_with_timeout`.  The
`compare_exchange(false, true, ...)` succeeds exactly when the flag is still
`false`; on success the flag is set and the processor sweep runs, the result
being `Ok(())` when every processor succeeded and otherwise an
`InternalFailure` aggregating the failed results; on CAS failure it returns
`AlreadyShutdown` without touching any processor. -/
def SdkLoggerProvider.shutdown_with_timeout (s : LoggerProviderInner)
    (t : Duration) : LoggerProviderInner × List PEvent × OTelSdkResult :=
  if s.is_shutdown = false then
    let s2 : LoggerProviderInner := { s with is_shutdown := true }
    let result := LoggerProviderInner.shutdown_with_timeout s2 t
    if result.1.all OTelSdkResult.is_ok then
      (s2, result.2, Except.ok ())
    else
      (s2, result.2, Except.error (OTelSdkError.InternalFailure
        ("Shutdown errors: " ++
          fmtVec OTelSdkError.debugFmt (result.1.filterMap OTelSdkResult.err))))
  else
    (s, [], Except.error OTelSdkError.AlreadyShutdown)

/-- Models `SdkLoggerProvider::shutdown`: delegates with a 5-second timeout. -/
def SdkLoggerProvider.shutdown (s : LoggerProviderInner) :
    LoggerProviderInner × List PEvent × OTelSdkResult :=
  SdkLoggerProvider.shutdown_with_timeout s (Duration.from_secs 5)

/-- The `map(|processor| processor.force_flush()).collect()` of
`SdkLoggerProvider::force_flush`, carrying the registration index. -/
def flushSweepFrom (k : Nat) :
    List LogProcessor → List OTelSdkResult × List PEvent
  | [] => ([], [])
  | p :: rest =>
    let tail := flushSweepFrom (k + 1) rest
    (p.force_flush :: tail.1, PEvent.flushCall k :: tail.2)

/-- Models `SdkLoggerProvider::force_flush`: flushes every processor, then
returns `Ok(())` when all succeeded and otherwise an `InternalFailure` whose
message renders the whole result vector.  The method takes `&self` and never
writes the flag, so the state comes back unchanged. -/
def SdkLoggerProvider.force_flush (s : LoggerProviderInner) :
    LoggerProviderInner × List PEvent × OTelSdkResult :=
  let result := flushSweepFrom 0 s.processors
  if result.1.all OTelSdkResult.is_ok then
    (s, result.2, Except.ok ())
  else
    (s, result.2, Except.error (OTelSdkError.InternalFailure
      ("errs: " ++ fmtVec fmtResult result.1)))

/-- Models `impl Drop for LoggerProviderInner`: when the state dies with the
flag still `false`, it runs `LoggerProviderInner::shutdown` (the 5-second
sweep) and discards the returned results (`let _ = ...`); otherwise it performs
no processor call.  Only the events survive the state's death. -/
def LoggerProviderInner.drop (s : LoggerProviderInner) : List PEvent :=
  if s.is_shutdown = false then (LoggerProviderInner.shutdown s).2 else []

/-- Models `InstrumentationScope` by the one field this module inspects. -/
structure InstrumentationScope where
  name : String
deriving DecidableEq

/-- The pipeline state a provider value references: `live` is the state built
by the builder, `noop` the process-wide `NOOP_LOGGER_PROVIDER` singleton.
`SdkLoggerProvider::clone` copies the reference, so a reference value models a
whole clone family of handles. -/
inductive ProviderRef where
  | live : ProviderRef
  | noop : ProviderRef
deriving DecidableEq

/-- The `NOOP_LOGGER_PROVIDER` singleton's inner state: zero processors and a
permanently-true shutdown flag. -/
def noopInner : LoggerProviderInner :=
  { processors := [], is_shutdown := true }

/-- Dereference a provider reference in a world whose live state is `w`. -/
def ProviderRef.deref (r : ProviderRef) (w : LoggerProviderInner) :
    LoggerProviderInner :=
  match r with
  | .live => w
  | .noop => noopInner

/-- Models `SdkLogger` by the two values `SdkLogger::new(scope, provider)`
receives: the scope and the provider (reference) it is bound to. -/
structure SdkLogger where
  scope : InstrumentationScope
  provider : ProviderRef
deriving DecidableEq

/-- Models `SdkLoggerProvider::logger_with_scope` for the handle `self` in the
world `w`: if the referenced state's shutdown flag is `true` the logger is
bound to the noop singleton, otherwise to a clone of `self`.  (The source also
logs a diagnostic when the scope name is empty; behaviour is unchanged.) -/
def logger_with_scope (w : LoggerProviderInner) (self : ProviderRef)
    (scope : InstrumentationScope) : SdkLogger :=
  if (self.deref w).is_shutdown then
    { scope := scope, provider := ProviderRef.noop }
  else
    { scope := scope, provider := self }

/-- Models `SdkLoggerProvider::logger`: builds a scope from the name and
delegates to `logger_with_scope`. -/
def logger (w : LoggerProviderInner) (self : ProviderRef) (name : String) :
    SdkLogger :=
  logger_with_scope w self { name := name }

/-- One `emit` call per processor, in registration order. -/
def emitSweepFrom (k : Nat) : List LogProcessor → List PEvent
  | [] => []
  | _ :: rest => PEvent.emitCall k :: emitSweepFrom (k + 1) rest

/-- Modelled from the spec: `SdkLogger::emit` lives outside this module; per
the spec a Logger holds a share of the pipeline state and its emitted records
are forwarded to every processor of that state in registration order, with the
shutdown gate applied only at logger-issuance time, not per emit. -/
def SdkLogger.emit (l : SdkLogger) (w : LoggerProviderInner) : List PEvent :=
  emitSweepFrom 0 (l.provider.deref w).processors

/-- Models `LoggerProviderBuilder`. -/
structure LoggerProviderBuilder where
  processors : List LogProcessor
  resource : Option Resource

/-- Models `LoggerProviderBuilder::default()`. -/
def LoggerProviderBuilder.default : LoggerProviderBuilder :=
  { processors := [], resource := none }

/-- Models `LoggerProviderBuilder::with_log_processor`: appends the processor
to the ordered list. -/
def LoggerProviderBuilder.with_log_processor (b : LoggerProviderBuilder)
    (p : LogProcessor) : LoggerProviderBuilder :=
  { b with processors := b.processors ++ [p] }

/-- Models `LoggerProviderBuilder::with_resource`: merges into any previously
supplied resource (the existing one on the left), else stores the new one. -/
def LoggerProviderBuilder.with_resource (b : LoggerProviderBuilder)
    (resource : Resource) : LoggerProviderBuilder :=
  let r :=
    match b.resource with
    | some existing => some (existing.merge resource)
    | none => some resource
  { b with resource := r }

/-- The `for processor in &mut processors { processor.set_resource(&resource) }`
loop of `build`, carrying the registration index. -/
def setResourceSweepFrom (k : Nat) (r : Resource) :
    List LogProcessor → List PEvent
  | [] => []
  | _ :: rest => PEvent.setResourceCall k r :: setResourceSweepFrom (k + 1) r rest

/-- Models `LoggerProviderBuilder::build`: resolves the resource (falling back
to `Resource::builder().build()`), fans `set_resource` out to every processor,
and wraps the processor list in a fresh inner state with the flag `false`.
The `set_resource` events happen inside `build`, before the handle exists. -/
def LoggerProviderBuilder.build (b : LoggerProviderBuilder) :
    LoggerProviderInner × List PEvent :=
  let resource := b.resource.getD Resource.builder_build
  let evs := setResourceSweepFrom 0 resource b.processors
  ({ processors := b.processors, is_shutdown := false }, evs)

/-- The API calls a client can make on the handles of one pipeline state
during its lifetime.  `clone_handle` (`Arc::clone`) and a non-final handle
drop run no user code and touch no state: `Arc` only adjusts the reference
count. -/
inductive Action where
  | shutdown_with_timeout (t : Duration)
  | shutdown
  | force_flush
  | clone_handle
  | drop_nonlast_handle

/-- Effect of one API call on the shared state, with the processor events it
produces. -/
def runAction (s : LoggerProviderInner) :
    Action → LoggerProviderInner × List PEvent
  | .shutdown_with_timeout t =>
    let r := SdkLoggerProvider.shutdown_with_timeout s t
    (r.1, r.2.1)
  | .shutdown =>
    let r := SdkLoggerProvider.shutdown s
    (r.1, r.2.1)
  | .force_flush =>
    let r := SdkLoggerProvider.force_flush s
    (r.1, r.2.1)
  | .clone_handle => (s, [])
  | .drop_nonlast_handle => (s, [])

/-- Runs a sequence of API calls, accumulating the produced events. -/
def runActions (s : LoggerProviderInner) :
    List Action → LoggerProviderInner × List PEvent
  | [] => (s, [])
  | a :: rest =>
    let step := runAction s a
    let tail := runActions step.1 rest
    (tail.1, step.2 ++ tail.2)

/-- All processor events over a state's entire lifetime: the client performs
`acts` through however many handles, and then the last handle is released,
which is the one moment `Arc` runs `Drop for LoggerProviderInner`. -/
def lifetimeTrace (s0 : LoggerProviderInner) (acts : List Action) :
    List PEvent :=
  let fin := runActions s0 acts
  fin.2 ++ LoggerProviderInner.drop fin.1

/-- Whether an event is a `shutdown_with_timeout` delivery to processor `i`. -/
def isShutdownCallTo (i : Nat) : PEvent → Bool
  | .shutdownCall j _ => j == i
  | _ => false

/-- How many times processor `i` received `shutdown_with_timeout` in a trace. -/
def shutdownCallsTo (i : Nat) (evs : List PEvent) : Nat :=
  evs.countP (isShutdownCallTo i)

/-- First value found for a key across a list of resources, in order. -/
def firstHit (k : String) : List Resource → Option String
  | [] => none
  | r :: rest =>
    match Resource.get r k with
    | some v => some v
    | none => firstHit k rest

/-- Folds `with_resource` over a list of resources. -/
def foldWithResource (b : LoggerProviderBuilder) (rs : List Resource) :
    LoggerProviderBuilder :=
  rs.foldl LoggerProviderBuilder.with_resource b

/-- Iterates `force_flush` `n` times on a state. -/
def flushN (s : LoggerProviderInner) : Nat → LoggerProviderInner
  | 0 => s
  | n + 1 => (SdkLoggerProvider.force_flush (flushN s n)).1

/-- Example processor whose calls all succeed. -/
def procOk : LogProcessor :=
  { shutdown_with_timeout := fun _ => Except.ok ()
    force_flush := Except.ok () }

/-- Example processor whose calls all fail. -/
def procFail : LogProcessor :=
  { shutdown_with_timeout :=
      fun _ => Except.error (OTelSdkError.InternalFailure "shutdown failed")
    force_flush := Except.error (OTelSdkError.InternalFailure "flush failed") }

/-- Example live state with two processors. -/
def exInner : LoggerProviderInner :=
  { processors := [procOk, procFail], is_shutdown := false }

/-- Example state whose flag is already `true`. -/
def exInnerShut : LoggerProviderInner :=
  { processors := [procOk, procFail], is_shutdown := true }

/-! ## Sweep lemmas -/

/-- The shutdown sweep collects exactly each processor's result, in order. -/
theorem shutdownSweepFrom_results (t : Duration) (ps : List LogProcessor) :
    ∀ k, (shutdownSweepFrom k t ps).1
      = ps.map (fun p => p.shutdown_with_timeout t) := by
  induction ps with
  | nil => intro k; rfl
  | cons p rest ih =>
    intro k
    simp [shutdownSweepFrom, ih (k + 1)]

/-- The shutdown sweep delivers one call per processor, in registration
order, each with the given timeout. -/
theorem shutdownSweepFrom_events (t : Duration) (ps : List LogProcessor) :
    ∀ k, (shutdownSweepFrom k t ps).2
      = (List.range ps.length).map (fun j => PEvent.shutdownCall (k + j) t) := by
  induction ps with
  | nil => intro k; rfl
  | cons p rest ih =>
    intro k
    simp only [shutdownSweepFrom, ih (k + 1), List.length_cons,
      List.range_succ_eq_map, List.map_cons, List.map_map, Nat.add_zero]
    congr 1
    refine List.map_congr_left ?_
    intro j _
    simp only [Function.comp_apply]
    congr 1
    omega

/-- Count of shutdown deliveries to processor `i` inside one sweep. -/
theorem shutdownCallsTo_sweep (t : Duration) (ps : List LogProcessor) :
    ∀ k i, shutdownCallsTo i (shutdownSweepFrom k t ps).2
      = if k ≤ i ∧ i < k + ps.length then 1 else 0 := by
  induction ps with
  | nil =>
    intro k i
    simp only [shutdownSweepFrom, shutdownCallsTo, List.countP_nil,
      List.length_nil]
    rw [if_neg (by omega)]
  | cons p rest ih =>
    intro k i
    have h1 := ih (k + 1) i
    simp only [shutdownCallsTo] at h1 ⊢
    simp only [shutdownSweepFrom, List.countP_cons, h1, isShutdownCallTo,
      beq_iff_eq, List.length_cons]
    split_ifs <;> omega

/-- The flush sweep collects exactly each processor's flush result. -/
theorem flushSweepFrom_results (ps : List LogProcessor) :
    ∀ k, (flushSweepFrom k ps).1 = ps.map (fun p => p.force_flush) := by
  induction ps with
  | nil => intro k; rfl
  | cons p rest ih =>
    intro k
    simp [flushSweepFrom, ih (k + 1)]

/-- The flush sweep delivers one `force_flush` per processor, in order. -/
theorem flushSweepFrom_events (ps : List LogProcessor) :
    ∀ k, (flushSweepFrom k ps).2
      = (List.range ps.length).map (fun j => PEvent.flushCall (k + j)) := by
  induction ps with
  | nil => intro k; rfl
  | cons p rest ih =>
    intro k
    simp only [flushSweepFrom, ih (k + 1), List.length_cons,
      List.range_succ_eq_map, List.map_cons, List.map_map, Nat.add_zero]
    congr 1
    refine List.map_congr_left ?_
    intro j _
    simp only [Function.comp_apply]
    congr 1
    omega

/-- Flush events contain no shutdown delivery. -/
theorem shutdownCallsTo_flushSweep (ps : List LogProcessor) :
    ∀ k i, shutdownCallsTo i (flushSweepFrom k ps).2 = 0 := by
  induction ps with
  | nil => intro k i; rfl
  | cons p rest ih =>
    intro k i
    simp [flushSweepFrom, shutdownCallsTo, List.countP_cons, isShutdownCallTo]
    have h1 := ih (k + 1) i
    simpa [shutdownCallsTo] using h1

/-- The emit sweep produces one `emit` per processor, in order. -/
theorem emitSweepFrom_events (ps : List LogProcessor) :
    ∀ k, emitSweepFrom k ps
      = (List.range ps.length).map (fun j => PEvent.emitCall (k + j)) := by
  induction ps with
  | nil => intro k; rfl
  | cons p rest ih =>
    intro k
    simp only [emitSweepFrom, ih (k + 1), List.length_cons,
      List.range_succ_eq_map, List.map_cons, List.map_map, Nat.add_zero]
    congr 1
    refine List.map_congr_left ?_
    intro j _
    simp only [Function.comp_apply]
    congr 1
    omega

/-- The resource sweep produces one `set_resource` per processor, in order. -/
theorem setResourceSweepFrom_events (r : Resource) (ps : List LogProcessor) :
    ∀ k, setResourceSweepFrom k r ps
      = (List.range ps.length).map (fun j => PEvent.setResourceCall (k + j) r) := by
  induction ps with
  | nil => intro k; rfl
  | cons p rest ih =>
    intro k
    simp only [setResourceSweepFrom, ih (k + 1), List.length_cons,
      List.range_succ_eq_map, List.map_cons, List.map_map, Nat.add_zero]
    congr 1
    refine List.map_congr_left ?_
    intro j _
    simp only [Function.comp_apply]
    congr 1
    omega

/-! ## Lifetime invariant -/

/-- No API call ever changes the processor list. -/
theorem runAction_processors (s : LoggerProviderInner) (a : Action) :
    ((runAction s a).1).processors = s.processors := by
  cases a <;>
    simp only [runAction, SdkLoggerProvider.shutdown,
      SdkLoggerProvider.shutdown_with_timeout, SdkLoggerProvider.force_flush] <;>
    split_ifs <;> rfl

/-- No sequence of API calls changes the processor list. -/
theorem runActions_processors (acts : List Action) :
    ∀ s : LoggerProviderInner, ((runActions s acts).1).processors = s.processors := by
  induction acts with
  | nil => intro s; rfl
  | cons a rest ih =>
    intro s
    simp only [runActions]
    rw [ih (runAction s a).1, runAction_processors]

/-- Single-step invariant: from a shut-down state every call leaves the flag
`true` and delivers no shutdown; from a live state a call either leaves the
flag `false` with no delivery, or flips it to `true` delivering exactly one
shutdown to each registered processor. -/
theorem runAction_shutdown_count (s : LoggerProviderInner) (a : Action)
    (i : Nat) (hi : i < s.processors.length) :
    (s.is_shutdown = true →
      (runAction s a).1.is_shutdown = true ∧
        shutdownCallsTo i (runAction s a).2 = 0) ∧
    (s.is_shutdown = false →
      ((runAction s a).1.is_shutdown = false ∧
        shutdownCallsTo i (runAction s a).2 = 0) ∨
      ((runAction s a).1.is_shutdown = true ∧
        shutdownCallsTo i (runAction s a).2 = 1)) := by
  cases a with
  | shutdown_with_timeout t =>
    constructor
    · intro h
      simp [runAction, SdkLoggerProvider.shutdown_with_timeout, h,
        shutdownCallsTo]
    · intro h
      right
      simp only [runAction, SdkLoggerProvider.shutdown_with_timeout, h,
        if_true, LoggerProviderInner.shutdown_with_timeout]
      constructor
      · split_ifs <;> rfl
      · have hc := shutdownCallsTo_sweep t s.processors 0 i
        rw [if_pos (by omega)] at hc
        split_ifs <;> simpa using hc
  | shutdown =>
    constructor
    · intro h
      simp [runAction, SdkLoggerProvider.shutdown,
        SdkLoggerProvider.shutdown_with_timeout, h, shutdownCallsTo]
    · intro h
      right
      simp only [runAction, SdkLoggerProvider.shutdown,
        SdkLoggerProvider.shutdown_with_timeout, h, if_true,
        LoggerProviderInner.shutdown_with_timeout]
      constructor
      · split_ifs <;> rfl
      · have hc := shutdownCallsTo_sweep (Duration.from_secs 5) s.processors 0 i
        rw [if_pos (by omega)] at hc
        split_ifs <;> simpa using hc
  | force_flush =>
    constructor
    · intro h
      simp only [runAction, SdkLoggerProvider.force_flush]
      constructor
      · split_ifs <;> exact h
      · have hc := shutdownCallsTo_flushSweep s.processors 0 i
        split_ifs <;> simpa using hc
    · intro h
      left
      simp only [runAction, SdkLoggerProvider.force_flush]
      constructor
      · split_ifs <;> exact h
      · have hc := shutdownCallsTo_flushSweep s.processors 0 i
        split_ifs <;> simpa using hc
  | clone_handle =>
    exact ⟨fun h => ⟨h, rfl⟩, fun h => Or.inl ⟨h, rfl⟩⟩
  | drop_nonlast_handle =>
    exact ⟨fun h => ⟨h, rfl⟩, fun h => Or.inl ⟨h, rfl⟩⟩

/-- Counting shutdown deliveries distributes over trace concatenation. -/
theorem shutdownCallsTo_append (i : Nat) (a b : List PEvent) :
    shutdownCallsTo i (a ++ b) = shutdownCallsTo i a + shutdownCallsTo i b := by
  simp [shutdownCallsTo, List.countP_append]

/-- Multi-step invariant: over any sequence of API calls, a shut-down state
stays shut down with zero deliveries, and a live state either stays live with
zero deliveries or ends shut down with exactly one delivery per processor. -/
theorem runActions_shutdown_count (acts : List Action) :
    ∀ (s : LoggerProviderInner) (i : Nat), i < s.processors.length →
    (s.is_shutdown = true →
      (runActions s acts).1.is_shutdown = true ∧
        shutdownCallsTo i (runActions s acts).2 = 0) ∧
    (s.is_shutdown = false →
      ((runActions s acts).1.is_shutdown = false ∧
        shutdownCallsTo i (runActions s acts).2 = 0) ∨
      ((runActions s acts).1.is_shutdown = true ∧
        shutdownCallsTo i (runActions s acts).2 = 1)) := by
  induction acts with
  | nil =>
    intro s i hi
    exact ⟨fun h => ⟨h, rfl⟩, fun h => Or.inl ⟨h, rfl⟩⟩
  | cons a rest ih =>
    intro s i hi
    have hi1 : i < ((runAction s a).1).processors.length := by
      rw [runAction_processors]; exact hi
    have hstep := runAction_shutdown_count s a i hi
    have hrest := ih (runAction s a).1 i hi1
    simp only [runActions, shutdownCallsTo_append]
    constructor
    · intro h
      obtain ⟨h1, h2⟩ := hstep.1 h
      obtain ⟨h3, h4⟩ := hrest.1 h1
      exact ⟨h3, by omega⟩
    · intro h
      rcases hstep.2 h with ⟨h1, h2⟩ | ⟨h1, h2⟩
      · rcases hrest.2 h1 with ⟨h3, h4⟩ | ⟨h3, h4⟩
        · exact Or.inl ⟨h3, by omega⟩
        · exact Or.inr ⟨h3, by omega⟩
      · obtain ⟨h3, h4⟩ := hrest.1 h1
        exact Or.inr ⟨h3, by omega⟩

/-- When the inner state dies with the flag `false`, its drop delivers exactly
one shutdown to each registered processor. -/
theorem shutdownCallsTo_drop_live (s : LoggerProviderInner) (i : Nat)
    (hi : i < s.processors.length) (h : s.is_shutdown = false) :
    shutdownCallsTo i (LoggerProviderInner.drop s) = 1 := by
  have hc := shutdownCallsTo_sweep (Duration.from_secs 5) s.processors 0 i
  rw [if_pos (by omega)] at hc
  simpa [LoggerProviderInner.drop, h, LoggerProviderInner.shutdown,
    LoggerProviderInner.shutdown_with_timeout] using hc

/-! ## Small shutdown helpers -/

/-- A winning CAS sets the flag and changes nothing else in the state. -/
theorem shutdown_state_of_live (s : LoggerProviderInner) (t : Duration)
    (h : s.is_shutdown = false) :
    (SdkLoggerProvider.shutdown_with_timeout s t).1
      = { s with is_shutdown := true } := by
  simp only [SdkLoggerProvider.shutdown_with_timeout, h, if_true]
  split_ifs <;> rfl

/-- A call on a state whose flag is already `true` fails with
`AlreadyShutdown`, produces no event and leaves the state untouched. -/
theorem shutdown_call_on_shut (s : LoggerProviderInner) (t : Duration)
    (h : s.is_shutdown = true) :
    SdkLoggerProvider.shutdown_with_timeout s t
      = (s, [], Except.error OTelSdkError.AlreadyShutdown) := by
  simp [SdkLoggerProvider.shutdown_with_timeout, h]

/-! ## Claim theorems -/

/-- Claim C1: for every pipeline state and every processor registered in it,
`shutdown_with_timeout` is delivered to that processor exactly once over the
state's entire lifetime — whatever sequence of explicit shutdown /
`shutdown_with_timeout` / `force_flush` calls, handle clones and non-final
handle drops the clients perform before the last handle is released. -/
theorem shutdown_delivered_exactly_once (ps : List LogProcessor)
    (acts : List Action) (i : Nat) (h : i < ps.length) :
    shutdownCallsTo i
      (lifetimeTrace { processors := ps, is_shutdown := false } acts) = 1 := by
  have hinv := runActions_shutdown_count acts
    { processors := ps, is_shutdown := false } i h
  have hproc := runActions_processors acts
    { processors := ps, is_shutdown := false }
  simp only [lifetimeTrace, shutdownCallsTo_append]
  rcases hinv.2 rfl with ⟨h1, h2⟩ | ⟨h1, h2⟩
  · have hd := shutdownCallsTo_drop_live
      (runActions { processors := ps, is_shutdown := false } acts).1 i
      (by rw [hproc]; exact h) h1
    omega
  · have hd : shutdownCallsTo i
        (LoggerProviderInner.drop
          (runActions { processors := ps, is_shutdown := false } acts).1) = 0 := by
      simp [LoggerProviderInner.drop, h1, shutdownCallsTo]
    omega

/-- Witness for C1 at a concrete two-processor lifetime with an explicit
shutdown, a losing second shutdown, a flush and a clone before release. -/
theorem shutdown_delivered_exactly_once_witness :
    1 < List.length [procOk, procFail] ∧
    shutdownCallsTo 1
      (lifetimeTrace { processors := [procOk, procFail], is_shutdown := false }
        [Action.force_flush, Action.shutdown, Action.shutdown_with_timeout 9,
         Action.clone_handle]) = 1 :=
  ⟨by decide,
   shutdown_delivered_exactly_once [procOk, procFail]
     [Action.force_flush, Action.shutdown, Action.shutdown_with_timeout 9,
      Action.clone_handle] 1 (by decide)⟩

/-- Claim C2: the call that wins the false-to-true flag transition sets the
flag, delivers `shutdown_with_timeout(timeout)` to each of the N processors
exactly once in registration order (no short-circuit on error), and — only
after the full sweep — returns `Ok(())` when every processor succeeded and
otherwise one `InternalFailure` aggregating the processor failures. -/
theorem first_shutdown_sweep_spec (s : LoggerProviderInner) (t : Duration)
    (h : s.is_shutdown = false) :
    SdkLoggerProvider.shutdown_with_timeout s t
      = ({ s with is_shutdown := true },
         (List.range s.processors.length).map
           (fun j => PEvent.shutdownCall j t),
         if (s.processors.map
              (fun p => p.shutdown_with_timeout t)).all OTelSdkResult.is_ok
         then Except.ok ()
         else Except.error (OTelSdkError.InternalFailure
           ("Shutdown errors: " ++ fmtVec OTelSdkError.debugFmt
             ((s.processors.map
                (fun p => p.shutdown_with_timeout t)).filterMap
                  OTelSdkResult.err)))) := by
  have hres := shutdownSweepFrom_results t s.processors 0
  have hev := shutdownSweepFrom_events t s.processors 0
  simp only [SdkLoggerProvider.shutdown_with_timeout, h, if_true,
    LoggerProviderInner.shutdown_with_timeout]
  rw [hres, hev]
  split_ifs <;> simp

/-- Witness for C2 on a live state with one succeeding and one failing
processor. -/
theorem first_shutdown_sweep_spec_witness :
    exInner.is_shutdown = false ∧
    SdkLoggerProvider.shutdown_with_timeout exInner 7
      = ({ exInner with is_shutdown := true },
         (List.range exInner.processors.length).map
           (fun j => PEvent.shutdownCall j 7),
         if (exInner.processors.map
              (fun p => p.shutdown_with_timeout 7)).all OTelSdkResult.is_ok
         then Except.ok ()
         else Except.error (OTelSdkError.InternalFailure
           ("Shutdown errors: " ++ fmtVec OTelSdkError.debugFmt
             ((exInner.processors.map
                (fun p => p.shutdown_with_timeout 7)).filterMap
                  OTelSdkResult.err)))) :=
  ⟨rfl, first_shutdown_sweep_spec exInner 7 rfl⟩

/-- Claim C3: a shutdown call on a state whose flag is already `true` returns
`AlreadyShutdown`, invokes zero processor methods and leaves the state
unchanged; in particular the second of two shutdown calls on the same state
always fails this way. -/
theorem already_shutdown_spec (s s0 : LoggerProviderInner)
    (t t1 t2 : Duration)
    (h : s.is_shutdown = true) (h0 : s0.is_shutdown = false) :
    SdkLoggerProvider.shutdown_with_timeout s t
      = (s, [], Except.error OTelSdkError.AlreadyShutdown) ∧
    SdkLoggerProvider.shutdown s
      = (s, [], Except.error OTelSdkError.AlreadyShutdown) ∧
    SdkLoggerProvider.shutdown_with_timeout
        (SdkLoggerProvider.shutdown_with_timeout s0 t1).1 t2
      = ((SdkLoggerProvider.shutdown_with_timeout s0 t1).1, [],
         Except.error OTelSdkError.AlreadyShutdown) := by
  refine ⟨shutdown_call_on_shut s t h, shutdown_call_on_shut s _ h, ?_⟩
  apply shutdown_call_on_shut
  rw [shutdown_state_of_live s0 t1 h0]

/-- Witness for C3: an already-shut state rejects both entry points, and the
second of two calls on an initially live state rejects. -/
theorem already_shutdown_spec_witness :
    exInnerShut.is_shutdown = true ∧ exInner.is_shutdown = false ∧
    (SdkLoggerProvider.shutdown_with_timeout exInnerShut 3
        = (exInnerShut, [], Except.error OTelSdkError.AlreadyShutdown) ∧
      SdkLoggerProvider.shutdown exInnerShut
        = (exInnerShut, [], Except.error OTelSdkError.AlreadyShutdown) ∧
      SdkLoggerProvider.shutdown_with_timeout
          (SdkLoggerProvider.shutdown_with_timeout exInner 4).1 5
        = ((SdkLoggerProvider.shutdown_with_timeout exInner 4).1, [],
           Except.error OTelSdkError.AlreadyShutdown)) :=
  ⟨rfl, rfl, already_shutdown_spec exInnerShut exInner 3 4 5 rfl rfl⟩

/-- Claim C4: when the last handle referencing the state is released, the
`Drop` impl runs one shutdown sweep over all processors with the default
5-second timeout (discarding the results) if the flag is still `false`, and
performs zero processor calls if the flag is already `true`. -/
theorem drop_release_spec (s u : LoggerProviderInner)
    (h : s.is_shutdown = false) (hu : u.is_shutdown = true) :
    LoggerProviderInner.drop s
      = (List.range s.processors.length).map
          (fun j => PEvent.shutdownCall j (Duration.from_secs 5)) ∧
    LoggerProviderInner.drop u = [] := by
  constructor
  · have hev := shutdownSweepFrom_events (Duration.from_secs 5) s.processors 0
    simp only [LoggerProviderInner.drop, h, if_true,
      LoggerProviderInner.shutdown, LoggerProviderInner.shutdown_with_timeout]
    rw [hev]
    simp
  · simp [LoggerProviderInner.drop, hu]

/-- Witness for C4 on concrete live and already-shut states. -/
theorem drop_release_spec_witness :
    exInner.is_shutdown = false ∧ exInnerShut.is_shutdown = true ∧
    (LoggerProviderInner.drop exInner
        = (List.range exInner.processors.length).map
            (fun j => PEvent.shutdownCall j (Duration.from_secs 5)) ∧
      LoggerProviderInner.drop exInnerShut = []) :=
  ⟨rfl, rfl, drop_release_spec exInner exInnerShut rfl rfl⟩

/-- Claim C5: logger issuance never fails; with the flag `true` the returned
logger is bound to the noop singleton and its emits reach zero processors (in
any world), with the flag `false` it is bound to a fresh share of the live
state; the gate is applied only at issuance, so a logger obtained before
shutdown still reaches every processor's `emit` after the flag has flipped. -/
theorem logger_issuance_spec (w v u : LoggerProviderInner)
    (scope : InstrumentationScope)
    (hw : w.is_shutdown = false) (hv : v.is_shutdown = true) :
    logger_with_scope v ProviderRef.live scope
      = { scope := scope, provider := ProviderRef.noop } ∧
    SdkLogger.emit (logger_with_scope v ProviderRef.live scope) u = [] ∧
    logger_with_scope w ProviderRef.live scope
      = { scope := scope, provider := ProviderRef.live } ∧
    SdkLogger.emit (logger_with_scope w ProviderRef.live scope)
        { w with is_shutdown := true }
      = (List.range w.processors.length).map PEvent.emitCall := by
  refine ⟨?_, ?_, ?_, ?_⟩
  · simp [logger_with_scope, ProviderRef.deref, hv]
  · simp [SdkLogger.emit, logger_with_scope, ProviderRef.deref, hv,
      noopInner, emitSweepFrom]
  · simp [logger_with_scope, ProviderRef.deref, hw]
  · have hev := emitSweepFrom_events w.processors 0
    simp only [SdkLogger.emit, logger_with_scope, ProviderRef.deref, hw,
      Bool.false_eq_true, if_false]
    rw [hev]
    simp

/-- Witness for C5 on concrete live and shut states. -/
theorem logger_issuance_spec_witness :
    exInner.is_shutdown = false ∧ exInnerShut.is_shutdown = true ∧
    (logger_with_scope exInnerShut ProviderRef.live { name := "a" }
        = { scope := { name := "a" }, provider := ProviderRef.noop } ∧
      SdkLogger.emit
          (logger_with_scope exInnerShut ProviderRef.live { name := "a" })
          exInner = [] ∧
      logger_with_scope exInner ProviderRef.live { name := "a" }
        = { scope := { name := "a" }, provider := ProviderRef.live } ∧
      SdkLogger.emit (logger_with_scope exInner ProviderRef.live { name := "a" })
          { exInner with is_shutdown := true }
        = (List.range exInner.processors.length).map PEvent.emitCall) :=
  ⟨rfl, rfl,
   logger_issuance_spec exInner exInnerShut exInner { name := "a" } rfl rfl⟩

/-- Claim C6: in any flag state, `force_flush` delivers `force_flush` to every
processor in registration order without short-circuiting, returns `Ok(())`
exactly when every processor succeeded, and otherwise one `InternalFailure`
aggregating the sweep's results, computed after the full sweep. -/
theorem force_flush_spec (s : LoggerProviderInner) :
    SdkLoggerProvider.force_flush s
      = (s,
         (List.range s.processors.length).map PEvent.flushCall,
         if (s.processors.map (fun p => p.force_flush)).all OTelSdkResult.is_ok
         then Except.ok ()
         else Except.error (OTelSdkError.InternalFailure
           ("errs: " ++ fmtVec fmtResult
             (s.processors.map (fun p => p.force_flush))))) := by
  have hres := flushSweepFrom_results s.processors 0
  have hev := flushSweepFrom_events s.processors 0
  simp only [SdkLoggerProvider.force_flush]
  rw [hres, hev]
  split_ifs <;> simp

/-- Claim C7: `force_flush` never mutates the shutdown flag or the processor
list, however many times it is iterated, before or after shutdown. -/
theorem force_flush_frame_spec (s : LoggerProviderInner) (n : Nat) :
    (flushN s n).is_shutdown = s.is_shutdown ∧
    (flushN s n).processors = s.processors := by
  induction n with
  | zero => exact ⟨rfl, rfl⟩
  | succ n ih =>
    simp only [flushN, SdkLoggerProvider.force_flush]
    constructor <;> (split_ifs <;> simp [ih.1, ih.2])

/-! ## Resource-merge lemmas -/

/-- First-match lookup over a concatenation prefers the left list. -/
theorem lookupAttr_append (k : String) (xs ys : List (String × String)) :
    lookupAttr k (xs ++ ys)
      = match lookupAttr k xs with
        | some v => some v
        | none => lookupAttr k ys := by
  induction xs with
  | nil => rfl
  | cons kv rest ih =>
    simp only [List.cons_append, lookupAttr]
    split_ifs <;> simp [ih]

/-- Merged lookup: the existing (left) descriptor wins on collision. -/
theorem resource_get_merge (a b : Resource) (k : String) :
    (a.merge b).get k
      = match a.get k with
        | some v => some v
        | none => b.get k := by
  simp [Resource.get, Resource.merge, lookupAttr_append]

/-- Folding `with_resource` over further descriptors keeps the accumulated
descriptor's values on collision and fills the remaining keys from the first
later descriptor that has them. -/
theorem foldWithResource_some (rs : List Resource) :
    ∀ (b : LoggerProviderBuilder) (r0 : Resource), b.resource = some r0 →
    ∃ r, (foldWithResource b rs).resource = some r ∧
      ∀ k, r.get k
        = match r0.get k with
          | some v => some v
          | none => firstHit k rs := by
  induction rs with
  | nil =>
    intro b r0 hb
    refine ⟨r0, by simpa [foldWithResource] using hb, fun k => ?_⟩
    cases hg : r0.get k <;> simp [firstHit, hg]
  | cons x rest ih =>
    intro b r0 hb
    have hb2 : (b.with_resource x).resource = some (r0.merge x) := by
      simp [LoggerProviderBuilder.with_resource, hb]
    obtain ⟨r, h1, h2⟩ := ih (b.with_resource x) (r0.merge x) hb2
    refine ⟨r, by simpa [foldWithResource] using h1, fun k => ?_⟩
    rw [h2 k, resource_get_merge]
    cases hg : r0.get k <;> simp [firstHit, hg]

/-- Claim C8: `with_resource` is additive with a left-biased merge — after any
nonempty sequence of calls, every key resolves to the value supplied by the
earliest call supplying it, so distinct keys accumulate into the union and a
later colliding call does not override an earlier value. -/
theorem with_resource_accumulates (rs : List Resource) (k : String)
    (h : rs ≠ []) :
    ∃ r, (foldWithResource LoggerProviderBuilder.default rs).resource = some r ∧
      r.get k = firstHit k rs := by
  cases rs with
  | nil => exact absurd rfl h
  | cons x rest =>
    have hb : (LoggerProviderBuilder.default.with_resource x).resource
        = some x := by
      simp [LoggerProviderBuilder.with_resource, LoggerProviderBuilder.default]
    obtain ⟨r, h1, h2⟩ := foldWithResource_some rest
      (LoggerProviderBuilder.default.with_resource x) x hb
    refine ⟨r, by simpa [foldWithResource] using h1, ?_⟩
    rw [h2 k]
    cases hg : x.get k <;> simp [firstHit, hg]

/-- Example single-key descriptors, the third colliding with the first. -/
def resA : Resource := { attrs := [("key1", "value1")] }

/-- Second example descriptor. -/
def resB : Resource := { attrs := [("key2", "value2")] }

/-- A later descriptor colliding with `resA` on `key1`. -/
def resC : Resource := { attrs := [("key1", "other")] }

/-- Witness for C8: three calls, a collision on `key1`; the earliest value
wins and evaluates concretely to `value1`. -/
theorem with_resource_accumulates_witness :
    ([resA, resB, resC] : List Resource) ≠ [] ∧
    (∃ r,
      (foldWithResource LoggerProviderBuilder.default
        [resA, resB, resC]).resource = some r ∧
      r.get "key1" = firstHit "key1" [resA, resB, resC]) ∧
    firstHit "key1" [resA, resB, resC] = some "value1" ∧
    firstHit "key2" [resA, resB, resC] = some "value2" :=
  ⟨List.cons_ne_nil _ _,
   with_resource_accumulates [resA, resB, resC] "key1" (List.cons_ne_nil _ _),
   by decide, by decide⟩

/-- Claim C9: `build` resolves the resource, falling back to the empty
descriptor when none was supplied, delivers `set_resource` with that resource
to every accumulated processor exactly once in registration order (inside
`build`, before the handle is returned), and wraps the processor list in a
fresh state whose shutdown flag is `false`. -/
theorem build_spec (b : LoggerProviderBuilder) :
    LoggerProviderBuilder.build b
      = ({ processors := b.processors, is_shutdown := false },
         (List.range b.processors.length).map
           (fun j => PEvent.setResourceCall j
             (b.resource.getD Resource.empty))) := by
  have hev := setResourceSweepFrom_events
    (b.resource.getD Resource.builder_build) b.processors 0
  simp only [LoggerProviderBuilder.build]
  rw [hev]
  simp [Resource.builder_build]

/-- Claim C10: with the flag still `false`, requesting a logger with an empty
name (or an empty-named scope) neither fails nor falls back to the noop
provider — the logger is bound to the live state exactly as for any other
scope, and its emitted records reach every registered processor. -/
theorem empty_name_logger_spec (w : LoggerProviderInner)
    (scope : InstrumentationScope) (h : w.is_shutdown = false) :
    logger w ProviderRef.live ""
      = { scope := { name := "" }, provider := ProviderRef.live } ∧
    logger_with_scope w ProviderRef.live { name := "" }
      = { scope := { name := "" }, provider := ProviderRef.live } ∧
    logger_with_scope w ProviderRef.live scope
      = { scope := scope, provider := ProviderRef.live } ∧
    SdkLogger.emit (logger w ProviderRef.live "") w
      = (List.range w.processors.length).map PEvent.emitCall := by
  refine ⟨?_, ?_, ?_, ?_⟩
  · simp [logger, logger_with_scope, ProviderRef.deref, h]
  · simp [logger_with_scope, ProviderRef.deref, h]
  · simp [logger_with_scope, ProviderRef.deref, h]
  · have hev := emitSweepFrom_events w.processors 0
    simp only [logger, logger_with_scope, SdkLogger.emit, ProviderRef.deref,
      h, Bool.false_eq_true, if_false]
    rw [hev]
    simp

/-- Witness for C10 on a concrete live state. -/
theorem empty_name_logger_spec_witness :
    exInner.is_shutdown = false ∧
    (logger exInner ProviderRef.live ""
        = { scope := { name := "" }, provider := ProviderRef.live } ∧
      logger_with_scope exInner ProviderRef.live { name := "" }
        = { scope := { name := "" }, provider := ProviderRef.live } ∧
      logger_with_scope exInner ProviderRef.live { name := "x" }
        = { scope := { name := "x" }, provider := ProviderRef.live } ∧
      SdkLogger.emit (logger exInner ProviderRef.live "") exInner
        = (List.range exInner.processors.length).map PEvent.emitCall) :=
  ⟨rfl, empty_name_logger_spec exInner { name := "x" } rfl⟩

end OtelLogs
